import Mathlib

/-!
Shallow embedding of the client-side live state synchronization subsystem of
Z-Image-Local-MLX: the zustand store (frontend/src/types.ts store section),
the WebSocket hook (useWebSocket), the App message dispatcher
(handleWebSocketMessage) and the GeneratePage generation handler
(handleGenerate / canGenerate).

Conventions of the embedding:
- TypeScript `X | null` and optional (`?`) values both become `Option X`;
  the only operation the merge code applies to them is `??`, under which
  `null` and `undefined` behave identically, so one `none` is faithful.
- JavaScript float-typed fields that the modelled code only carries around
  (sizes, speeds, percentages, generation times) become `Rat`; no arithmetic
  is ever performed on them by the modelled code.
- JavaScript string truthiness (`""` and `null` are falsy) is modelled
  explicitly by `jsTruthyStr` / `jsOrStr`.
-/

namespace ZImage

/-- `ModelState` of frontend/src/types.ts. -/
inductive ModelState where
  | not_downloaded
  | downloading
  | downloaded
  | loading
  | ready
  | error
deriving DecidableEq

/-- `DownloadProgress` of frontend/src/types.ts. -/
structure DownloadProgress where
  total_size : Nat
  downloaded_size : Nat
  current_file : String
  files_completed : Nat
  total_files : Nat
  speed : Rat
  eta : Rat
  percent : Rat
deriving DecidableEq

/-- `Model` of frontend/src/types.ts. -/
structure Model where
  id : String
  name : String
  description : String
  recommended_steps : Nat
  recommended_guidance : Rat
  size_gb : Rat
  state : ModelState
  progress : Option DownloadProgress
  error : Option String
  is_current : Bool
deriving DecidableEq

/-- `gpu_info` component of `SystemInfo` of frontend/src/types.ts. -/
structure GpuInfo where
  name : String
  memory_total : Nat
  memory_allocated : Nat
  memory_cached : Nat
deriving DecidableEq

/-- `SystemInfo` of frontend/src/types.ts. -/
structure SystemInfo where
  device : String
  cuda_available : Bool
  mps_available : Bool
  gpu_info : Option GpuInfo
  torch_version : String
deriving DecidableEq

/-- `GeneratedImage` of frontend/src/types.ts. -/
structure GeneratedImage where
  image_id : String
  image_url : String
  image_base64 : Option String
  prompt : String
  model_id : String
  width : Nat
  height : Nat
  seed : Int
  generation_time : Rat
deriving DecidableEq

/-- `AppView` of frontend/src/types.ts. -/
inductive AppView where
  | init
  | generate
  | gallery
deriving DecidableEq

/-- The state slice of the zustand store (`AppState` of the store module,
data fields only; the actions are modelled as functions below). -/
structure AppState where
  systemInfo : Option SystemInfo
  isConnected : Bool
  connectionError : Option String
  models : List Model
  selectedModelId : Option String
  isGenerating : Bool
  generatedImages : List GeneratedImage
  currentPrompt : String
  generationError : Option String
  currentView : AppView
deriving DecidableEq

/-- JavaScript `a ?? b` on nullable values. -/
def jsCoalesce {α : Type} (a b : Option α) : Option α :=
  match a with
  | some x => some x
  | none => b

/-- JavaScript `a || b` on string-or-null values: `null` and `""` are falsy
and fall through to `b`. -/
def jsOrStr (a b : Option String) : Option String :=
  match a with
  | some s => if s = "" then b else some s
  | none => b

/-- JavaScript truthiness of a string-or-null value. -/
def jsTruthyStr : Option String → Bool
  | none => false
  | some s => if s = "" then false else true

/-- JavaScript `String.prototype.trim`, modelled structurally: drop
leading and trailing whitespace characters. -/
def jsTrim (s : String) : String :=
  String.mk (((s.data.dropWhile Char.isWhitespace).reverse.dropWhile
    Char.isWhitespace).reverse)

/-- The per-record function mapped over the model list by
`updateModelStatus` (the lambda of store `updateModelStatus`,
frontend/src/types.ts lines 200-213). -/
def mergeRecord (modelId : String) (state : ModelState)
    (progress : Option DownloadProgress) (error : Option String)
    (m : Model) : Model :=
  if m.id = modelId then
    { m with
      state := state
      progress := jsCoalesce progress m.progress
      error := jsCoalesce error m.error }
  else m

/-- Store action `updateModelStatus` (frontend/src/types.ts lines 200-213). -/
def updateModelStatus (modelId : String) (state : ModelState)
    (progress : Option DownloadProgress) (error : Option String)
    (s : AppState) : AppState :=
  { s with models := s.models.map (mergeRecord modelId state progress error) }

/-- Store action `setModels` (frontend/src/types.ts lines 184-198):
replaces the model list and recomputes `selectedModelId` by JavaScript
`||` chaining: `currentSelected || readyModel?.id || downloadedModel?.id
|| models[0]?.id || null`. -/
def setModels (models : List Model) (s : AppState) : AppState :=
  let readyModel := models.find? (fun m => m.state = ModelState.ready)
  let downloadedModel := models.find? (fun m => m.state = ModelState.downloaded)
  let currentSelected := s.selectedModelId
  { s with
    models := models
    selectedModelId :=
      jsOrStr currentSelected
        (jsOrStr (readyModel.map Model.id)
          (jsOrStr (downloadedModel.map Model.id)
            (models.head?.map Model.id))) }

/-- Store action `setSelectedModel` (frontend/src/types.ts line 215). -/
def setSelectedModel (modelId : String) (s : AppState) : AppState :=
  { s with selectedModelId := some modelId }

/-- Store action `setCurrentView`. -/
def setCurrentView (view : AppView) (s : AppState) : AppState :=
  { s with currentView := view }

/-- Store action `setGenerating` (frontend/src/types.ts line 219). -/
def setGenerating (generating : Bool) (s : AppState) : AppState :=
  { s with isGenerating := generating }

/-- Store action `addGeneratedImage`. -/
def addGeneratedImage (image : GeneratedImage) (s : AppState) : AppState :=
  { s with generatedImages := image :: s.generatedImages }

/-- Store action `setCurrentPrompt`. -/
def setCurrentPrompt (prompt : String) (s : AppState) : AppState :=
  { s with currentPrompt := prompt }

/-- Store action `setGenerationError`. -/
def setGenerationError (error : Option String) (s : AppState) : AppState :=
  { s with generationError := error }

/-- Store action `setConnectionStatus`. -/
def setConnectionStatus (connected : Bool) (error : Option String)
    (s : AppState) : AppState :=
  { s with isConnected := connected, connectionError := error }

/-! ### The WebSocket session manager (frontend/src/hooks/useWebSocket.ts) -/

/-- The `readyState` constants of a browser WebSocket. -/
inductive ReadyState where
  | CONNECTING
  | OPEN
  | CLOSING
  | CLOSED
deriving DecidableEq

/-- The mutable state of the `useWebSocket` hook: the mounted flag
(`mountedRef`), the connection flags (`isConnected`, `connectionError`),
the socket reference with its current ready state (`wsRef`), and the
pending reconnect timer (`reconnectTimeoutRef`), recorded together with
the delay in milliseconds it was scheduled with. -/
structure WsState where
  mounted : Bool
  isConnected : Bool
  connectionError : Option String
  socket : Option ReadyState
  reconnectTimer : Option Nat
deriving DecidableEq

/-- The default of the `reconnectInterval` option of `useWebSocket`
(3000 ms). -/
def defaultReconnectInterval : Nat := 3000

/-- The `ws.onclose` handler of `useWebSocket` (state effect): an early
return when unmounted; otherwise clear the connected flag and the socket
reference, and schedule one reconnect after `reconnectInterval` unless the
closure code is the intentional 1000. The `onDisconnect` callback it fires
is owned by the caller and carries no hook state. -/
def onClose (reconnectInterval : Nat) (code : Nat) (s : WsState) : WsState :=
  if s.mounted = false then s
  else
    let s1 := { s with isConnected := false, socket := none }
    if code ≠ 1000 then { s1 with reconnectTimer := some reconnectInterval }
    else s1

/-- The `disconnect` callback of `useWebSocket`: cancel any pending
reconnect timer, then close the socket with the intentional code 1000 and
drop the reference. -/
def disconnect (s : WsState) : WsState :=
  { s with reconnectTimer := none, socket := none }

/-- The `send` callback of `useWebSocket`: transmit the serialized payload
only when a socket exists and its ready state is OPEN. The returned
boolean records whether `ws.send` was called; the hook state is never
mutated by `send`. -/
def send (_message : String) (s : WsState) : WsState × Bool :=
  match s.socket with
  | some rs => if rs = ReadyState.OPEN then (s, true) else (s, false)
  | none => (s, false)

/-! ### The App message dispatcher (handleWebSocketMessage in App.tsx) -/

/-- The tagged WebSocket messages dispatched by `handleWebSocketMessage`;
the fields of `model_status` are those of `ModelStatusMessage` of
frontend/src/types.ts (its `error` field is `string | null`). -/
inductive WsMessage where
  | initial_state
  | model_status (model_id : String) (state : ModelState)
      (progress : Option DownloadProgress) (error : Option String)
  | generation_start
  | generation_complete
  | generation_error (error : String)
  | heartbeat
  | pong
  | unknown (tag : String)
deriving DecidableEq

/-- The store effect of `handleWebSocketMessage` (App.tsx): a
`model_status` message is forwarded field-by-field to `updateModelStatus`;
`initial_state` triggers a REST re-fetch (an asynchronous call whose
eventual effect is `setModels`, modelled separately); every other tag,
known or unknown, leaves the store unchanged. -/
def handleWebSocketMessage : WsMessage → AppState → AppState
  | WsMessage.model_status mid st prog err, s => updateModelStatus mid st prog err s
  | _, s => s

/-! ### The GeneratePage generation handler (handleGenerate / canGenerate) -/

/-- `GenerationMode` of GeneratePage.tsx. -/
inductive GenerationMode where
  | txt2img
  | img2img
deriving DecidableEq

/-- The outcome of the awaited API call inside `handleGenerate`: the
resolved `GeneratedImage`, or the caught error message. -/
inductive ApiOutcome where
  | success (img : GeneratedImage)
  | failure (msg : String)
deriving DecidableEq

/-- The request data `handleGenerate` hands to the API client in both
modes: `prompt` is `currentPrompt` and `model_id` is `selectedModelId`
(`api.generateImage` receives them in its `GenerationRequest` body,
`api.generateImg2Img` in its form data). The remaining request parameters
(width, height, steps, guidance, seed, negative prompt, image strength)
are forwarded verbatim from local component state and are never inspected
by any control flow, so they are elided here. -/
structure IssuedRequest where
  prompt : String
  model_id : String
deriving DecidableEq

/-- The component state of GeneratePage relevant to `handleGenerate`: the
store, the generation mode, and whether a reference image file is present
(the code only tests the file's truthiness). -/
structure GenPageState where
  store : AppState
  mode : GenerationMode
  referenceImage : Bool
deriving DecidableEq

/-- `canGenerate` of GeneratePage.tsx (line 259): the truthiness of
`currentPrompt.trim() && !isGenerating && selectedModelId &&
(mode === "txt2img" || referenceImage)`. -/
def canGenerate (st : GenPageState) : Bool :=
  if jsTrim st.store.currentPrompt = "" then false
  else if st.store.isGenerating = true then false
  else if jsTruthyStr st.store.selectedModelId = false then false
  else if st.mode = GenerationMode.txt2img then true
  else st.referenceImage

/-- `handleGenerate` of GeneratePage.tsx (lines 195-247) as one
synchronous step parameterised by the API call's outcome: the two guard
returns issue nothing and touch nothing; otherwise `setGenerating(true)`
and `setGenerationError(null)` run, the API call resolves to `outcome`,
a success is appended via `addGeneratedImage` while a failure is recorded
via `setGenerationError`, and the `finally` block runs
`setGenerating(false)`. The second component is the request handed to the
API client, `none` when no request was issued. -/
def handleGenerate (st : GenPageState) (outcome : ApiOutcome) :
    GenPageState × Option IssuedRequest :=
  if jsTrim st.store.currentPrompt = "" ∨
     jsTruthyStr st.store.selectedModelId = false ∨
     st.store.isGenerating = true then
    (st, none)
  else if st.mode = GenerationMode.img2img ∧ st.referenceImage = false then
    (st, none)
  else
    let s1 := setGenerationError none (setGenerating true st.store)
    let req : IssuedRequest :=
      { prompt := st.store.currentPrompt
        model_id := st.store.selectedModelId.getD "" }
    match outcome with
    | ApiOutcome.success img =>
        ({ st with store := setGenerating false (addGeneratedImage img s1) }, some req)
    | ApiOutcome.failure msg =>
        ({ st with store := setGenerating false (setGenerationError (some msg) s1) }, some req)

/-! ### Spec-side vocabulary and concrete sample data -/

/-- Modelled from the spec: the state recency rank table of spec §4.2,
used only to state the rank-based claims (`Error` is outside the total
order, hence `none`). The implementation under src/ defines no rank. -/
def specRank? : ModelState → Option Nat
  | ModelState.not_downloaded => some 0
  | ModelState.downloading => some 1
  | ModelState.downloaded => some 2
  | ModelState.loading => some 3
  | ModelState.ready => some 4
  | ModelState.error => none

/-- A concrete progress payload for scenario inputs. -/
def sampleProgress : DownloadProgress :=
  { total_size := 100
    downloaded_size := 50
    current_file := "weights.safetensors"
    files_completed := 1
    total_files := 2
    speed := 10
    eta := 5
    percent := 50 }

/-- A concrete model record for scenario inputs. -/
def mkModel (id : String) (state : ModelState)
    (progress : Option DownloadProgress) (error : Option String) : Model :=
  { id := id
    name := id
    description := ""
    recommended_steps := 8
    recommended_guidance := 0
    size_gb := 6
    state := state
    progress := progress
    error := error
    is_current := false }

/-- The initial store state of the zustand store. -/
def emptyStore : AppState :=
  { systemInfo := none
    isConnected := false
    connectionError := none
    models := []
    selectedModelId := none
    isGenerating := false
    generatedImages := []
    currentPrompt := ""
    generationError := none
    currentView := AppView.init }

/-- A store holding the given registry and nothing else. -/
def storeWith (models : List Model) : AppState :=
  { emptyStore with models := models }

/-- A concrete generated image for scenario inputs. -/
def sampleImage : GeneratedImage :=
  { image_id := "i1"
    image_url := "/api/images/i1"
    image_base64 := none
    prompt := "hi"
    model_id := "m1"
    width := 1024
    height := 1024
    seed := 0
    generation_time := 1 }

/-- A GeneratePage state ready to generate: a non-blank prompt, a selected
model, txt2img mode, no generation in flight. -/
def genReadyPage : GenPageState :=
  { store := { emptyStore with currentPrompt := "hi", selectedModelId := some "m1" }
    mode := GenerationMode.txt2img
    referenceImage := false }

/-- `genReadyPage` with a generation already in flight. -/
def genBusyPage : GenPageState :=
  { genReadyPage with store := { genReadyPage.store with isGenerating := true } }

/-- A GeneratePage state with a blank prompt. -/
def genBlankPage : GenPageState :=
  { store := emptyStore
    mode := GenerationMode.txt2img
    referenceImage := false }

/-- A mounted hook state with an open socket and no pending timer. -/
def wsMounted : WsState :=
  { mounted := true
    isConnected := true
    connectionError := none
    socket := some ReadyState.OPEN
    reconnectTimer := none }

/-! ### Helper lemmas about the merge function -/

/-- `mergeRecord` never changes a record's id. -/
theorem mergeRecord_id_eq (mid : String) (st : ModelState)
    (prog : Option DownloadProgress) (err : Option String) (m : Model) :
    (mergeRecord mid st prog err m).id = m.id := by
  unfold mergeRecord
  split <;> rfl

/-- `mergeRecord` is idempotent on each record. -/
theorem mergeRecord_idem (mid : String) (st : ModelState)
    (prog : Option DownloadProgress) (err : Option String) (m : Model) :
    mergeRecord mid st prog err (mergeRecord mid st prog err m) =
      mergeRecord mid st prog err m := by
  unfold mergeRecord
  by_cases h : m.id = mid
  · simp [h, jsCoalesce]
    cases prog <;> cases err <;> simp
  · simp [h]

/-! ### Claim theorems -/

/-- C7: applying the same `model_status` message twice via the registry
merge yields exactly the same store (hence the same registry content) as
applying it once. -/
theorem c7_merge_idempotent (s : AppState) (mid : String) (st : ModelState)
    (prog : Option DownloadProgress) (err : Option String) :
    updateModelStatus mid st prog err (updateModelStatus mid st prog err s) =
      updateModelStatus mid st prog err s := by
  cases s
  simp [updateModelStatus, List.map_map]
  exact fun m _ => mergeRecord_idem mid st prog err m

/-- C9: a push update for a model id absent from the registry leaves the
store literally unchanged; every update preserves the list of record ids
(hence adds no record, removes none, and preserves the one-record-per-id
invariant expressed as `Nodup` of the id list). -/
theorem c9_unknown_id_ignored (s : AppState) (mid : String) (st : ModelState)
    (prog : Option DownloadProgress) (err : Option String) :
    ((∀ m ∈ s.models, m.id ≠ mid) → updateModelStatus mid st prog err s = s) ∧
    (updateModelStatus mid st prog err s).models.map Model.id =
      s.models.map Model.id ∧
    (updateModelStatus mid st prog err s).models.length = s.models.length ∧
    ((s.models.map Model.id).Nodup →
      ((updateModelStatus mid st prog err s).models.map Model.id).Nodup) := by
  have hids : (updateModelStatus mid st prog err s).models.map Model.id =
      s.models.map Model.id := by
    show (s.models.map (mergeRecord mid st prog err)).map Model.id =
      s.models.map Model.id
    rw [List.map_map]
    exact List.map_congr_left fun m _ => mergeRecord_id_eq mid st prog err m
  refine ⟨?_, hids, ?_, ?_⟩
  · intro h
    have h1 : s.models.map (mergeRecord mid st prog err) = s.models := by
      have h2 : s.models.map (mergeRecord mid st prog err) = s.models.map id :=
        List.map_congr_left fun m hm => by
          unfold mergeRecord
          rw [if_neg (h m hm)]
          rfl
      rw [h2, List.map_id]
    show { s with models := s.models.map (mergeRecord mid st prog err) } = s
    rw [h1]
  · show (s.models.map (mergeRecord mid st prog err)).length = s.models.length
    rw [List.length_map]
  · intro h
    rw [hids]
    exact h

/-- C9 witness: an update for the unknown id leaves a concrete one-record
store unchanged, and the id list of the result is duplicate-free. -/
theorem c9_unknown_id_ignored_witness :
    updateModelStatus "zzz" ModelState.ready none none
        (storeWith [mkModel "m1" ModelState.ready none none]) =
      storeWith [mkModel "m1" ModelState.ready none none] ∧
    ((updateModelStatus "zzz" ModelState.ready none none
        (storeWith [mkModel "m1" ModelState.ready none none])).models.map
          Model.id).Nodup := by
  refine ⟨?_, ?_⟩
  · exact (c9_unknown_id_ignored (storeWith [mkModel "m1" ModelState.ready none none])
      "zzz" ModelState.ready none none).1 (by decide)
  · exact (c9_unknown_id_ignored (storeWith [mkModel "m1" ModelState.ready none none])
      "zzz" ModelState.ready none none).2.2.2 (by decide)

/-- C1 counterexample: a record currently `ready` (spec rank 4) receives an
update carrying the strictly older state `downloading` (spec rank 1) and the
state field does NOT stay unchanged — it becomes `downloading`, so the rank
is not monotonically non-decreasing and no `Error` excursion is involved. -/
theorem c1_stale_update_overwrites_state :
    (storeWith [mkModel "m1" ModelState.ready none none]).models.map Model.state =
      [ModelState.ready] ∧
    (updateModelStatus "m1" ModelState.downloading none none
        (storeWith [mkModel "m1" ModelState.ready none none])).models.map
          Model.state = [ModelState.downloading] ∧
    specRank? ModelState.downloading = some 1 ∧
    specRank? ModelState.ready = some 4 := by
  decide

/-- C1 amended: the registry merge is last-writer-wins by arrival order,
not rank-monotone: (i) an update for an existing id always overwrites the
state field, including an update carrying a strictly lower-ranked state;
(ii) an update carrying no progress leaves the existing progress untouched
for every current state, so a `downloading` record hit by a stale
progress-free `not_downloaded` update keeps its progress populated while
its state becomes `not_downloaded`; (iii) after any update the state list
of the registry depends only on the incoming state at the matching id. -/
theorem c1_last_writer_wins (mid : String) (st : ModelState)
    (prog : Option DownloadProgress) (err : Option String) (m : Model)
    (s : AppState) (p : DownloadProgress) :
    (m.id = mid → (mergeRecord mid st prog err m).state = st) ∧
    (m.id = mid → m.state = ModelState.downloading → m.progress = some p →
      (mergeRecord mid ModelState.not_downloaded none none m).progress = some p ∧
      (mergeRecord mid ModelState.not_downloaded none none m).state =
        ModelState.not_downloaded) ∧
    (updateModelStatus mid st prog err s).models.map Model.state =
      s.models.map (fun m2 => if m2.id = mid then st else m2.state) := by
  refine ⟨?_, ?_, ?_⟩
  · intro h
    unfold mergeRecord
    rw [if_pos h]
  · intro h _ hp
    unfold mergeRecord
    rw [if_pos h]
    exact ⟨by simpa [jsCoalesce] using hp, rfl⟩
  · show (s.models.map (mergeRecord mid st prog err)).map Model.state = _
    rw [List.map_map]
    exact List.map_congr_left fun m2 _ => by
      unfold mergeRecord
      by_cases h : m2.id = mid <;> simp [h]

/-- C1 amended witness: a concrete `downloading` record with populated
progress receives a stale progress-free `not_downloaded` update; the
progress stays populated and the state becomes `not_downloaded`. -/
theorem c1_last_writer_wins_witness :
    (mergeRecord "m1" ModelState.not_downloaded none none
        (mkModel "m1" ModelState.downloading (some sampleProgress) none)).progress =
      some sampleProgress ∧
    (mergeRecord "m1" ModelState.not_downloaded none none
        (mkModel "m1" ModelState.downloading (some sampleProgress) none)).state =
      ModelState.not_downloaded :=
  (c1_last_writer_wins "m1" ModelState.not_downloaded none none
      (mkModel "m1" ModelState.downloading (some sampleProgress) none)
      emptyStore sampleProgress).2.1 rfl rfl rfl

/-- C2 counterexample: a record in `error` state for model `"m3"` with
message `"boom"` receives a fresh `downloading` status message (its
`error` field `null`, as a non-error push carries); the state becomes
`downloading` but `errorMessage` is NOT cleared — the record is not
replaced wholesale. -/
theorem c2_error_message_not_cleared :
    (handleWebSocketMessage
        (WsMessage.model_status "m3" ModelState.downloading none none)
        (storeWith [mkModel "m3" ModelState.error none (some "boom")])).models.map
          Model.state = [ModelState.downloading] ∧
    (handleWebSocketMessage
        (WsMessage.model_status "m3" ModelState.downloading none none)
        (storeWith [mkModel "m3" ModelState.error none (some "boom")])).models.map
          Model.error = [some "boom"] := by
  decide

/-- C2 amended: merging a fresh non-error update into a record currently in
`error` sets the state field to the incoming state but retains the stored
`errorMessage` whenever the update's error field is null/absent (the code
computes `error ?? current`): the record is not replaced wholesale and the
error is not cleared. -/
theorem c2_error_recovery_retains_message (s : AppState) (mid : String)
    (st : ModelState) (prog : Option DownloadProgress) (m : Model) (e : String) :
    m ∈ s.models → m.id = mid → m.state = ModelState.error →
    m.error = some e → st ≠ ModelState.error →
    ({ m with state := st, progress := jsCoalesce prog m.progress } ∈
        (updateModelStatus mid st prog none s).models) ∧
    ({ m with state := st, progress := jsCoalesce prog m.progress } : Model).error =
      some e := by
  intro hm hid _ he _
  constructor
  · have hfm : mergeRecord mid st prog none m =
        { m with state := st, progress := jsCoalesce prog m.progress } := by
      unfold mergeRecord
      rw [if_pos hid]
      rfl
    have := List.mem_map_of_mem (mergeRecord mid st prog none) hm
    rw [hfm] at this
    exact this
  · exact he

/-- C2 amended witness: the concrete `"m3"` error record with message
`"boom"` under a fresh `downloading` update keeps `error = some "boom"`. -/
theorem c2_error_recovery_retains_message_witness :
    ({ mkModel "m3" ModelState.error none (some "boom") with
        state := ModelState.downloading
        progress := jsCoalesce none
          (mkModel "m3" ModelState.error none (some "boom")).progress } ∈
      (updateModelStatus "m3" ModelState.downloading none none
        (storeWith [mkModel "m3" ModelState.error none (some "boom")])).models) ∧
    ({ mkModel "m3" ModelState.error none (some "boom") with
        state := ModelState.downloading
        progress := jsCoalesce none
          (mkModel "m3" ModelState.error none (some "boom")).progress } : Model).error =
      some "boom" :=
  c2_error_recovery_retains_message
    (storeWith [mkModel "m3" ModelState.error none (some "boom")]) "m3"
    ModelState.downloading none (mkModel "m3" ModelState.error none (some "boom"))
    "boom" (by decide) rfl rfl rfl (by decide)

/-- C3 counterexample: the registry knows record `"m1"`; a full snapshot
containing only `"m2"` is applied via `setModels` and the `"m1"` record is
removed, not left untouched — the snapshot is not additive-only. -/
theorem c3_snapshot_removes_absent_record :
    "m1" ∈ (storeWith [mkModel "m1" ModelState.ready none none]).models.map
      Model.id ∧
    (setModels [mkModel "m2" ModelState.not_downloaded none none]
        (storeWith [mkModel "m1" ModelState.ready none none])).models.map
          Model.id = ["m2"] ∧
    "m1" ∉ (setModels [mkModel "m2" ModelState.not_downloaded none none]
        (storeWith [mkModel "m1" ModelState.ready none none])).models.map
          Model.id := by
  decide

/-- C3 amended: `setModels` replaces the registry wholesale with the
snapshot list; a locally-known record whose id is absent from the snapshot
is dropped from the registry rather than left untouched. -/
theorem c3_snapshot_replaces_wholesale (ms : List Model) (s : AppState) :
    (setModels ms s).models = ms ∧
    ∀ m, m ∈ s.models → m.id ∉ ms.map Model.id →
      m ∉ (setModels ms s).models := by
  refine ⟨rfl, ?_⟩
  intro m _ hid hmem
  exact hid (List.mem_map_of_mem Model.id hmem)

/-- C3 amended witness: the concrete snapshot of the counterexample
replaces the registry and drops the locally-known `"m1"` record. -/
theorem c3_snapshot_replaces_wholesale_witness :
    (setModels [mkModel "m2" ModelState.not_downloaded none none]
        (storeWith [mkModel "m1" ModelState.ready none none])).models =
      [mkModel "m2" ModelState.not_downloaded none none] ∧
    mkModel "m1" ModelState.ready none none ∉
      (setModels [mkModel "m2" ModelState.not_downloaded none none]
        (storeWith [mkModel "m1" ModelState.ready none none])).models :=
  ⟨(c3_snapshot_replaces_wholesale
      [mkModel "m2" ModelState.not_downloaded none none]
      (storeWith [mkModel "m1" ModelState.ready none none])).1,
   (c3_snapshot_replaces_wholesale
      [mkModel "m2" ModelState.not_downloaded none none]
      (storeWith [mkModel "m1" ModelState.ready none none])).2
     (mkModel "m1" ModelState.ready none none) (by decide) (by decide)⟩

/-- C4 counterexample: the caller explicitly selects id `"mX"`; the next
snapshot contains only the ready model `"m1"`, so `"mX"` no longer exists
in the registry, yet the selection stays `"mX"` instead of falling back to
the priority order (which would pick `"m1"`). -/
theorem c4_stale_selection_kept :
    (setModels [mkModel "m1" ModelState.ready none none]
        (setSelectedModel "mX" emptyStore)).selectedModelId = some "mX" ∧
    "mX" ∉ (setModels [mkModel "m1" ModelState.ready none none]
        (setSelectedModel "mX" emptyStore)).models.map Model.id ∧
    (setModels [mkModel "m1" ModelState.ready none none]
        (setSelectedModel "mX" emptyStore)).models.map Model.id = ["m1"] := by
  decide

/-- C4 amended: when no model is selected, `setModels` picks the active
model by the priority order first-`ready` record, then first-`downloaded`
record, then the first record of the snapshot (a candidate whose id is the
empty string falls through, by JavaScript truthiness); once a caller has
explicitly selected a model with a non-empty id, that selection is never
overridden by a subsequent snapshot — including when the selected id no
longer exists in the registry: no existence check or fallback occurs. From
an empty registry, a snapshot with `m1` ready and `m2` not downloaded
selects `"m1"`. -/
theorem c4_selection_policy (ms : List Model) (s : AppState) (sid : String)
    (r d h : Model) :
    (s.selectedModelId = some sid → sid ≠ "" →
      (setModels ms s).selectedModelId = some sid) ∧
    (s.selectedModelId = none →
      ms.find? (fun m => m.state = ModelState.ready) = some r → r.id ≠ "" →
      (setModels ms s).selectedModelId = some r.id) ∧
    (s.selectedModelId = none →
      ms.find? (fun m => m.state = ModelState.ready) = none →
      ms.find? (fun m => m.state = ModelState.downloaded) = some d → d.id ≠ "" →
      (setModels ms s).selectedModelId = some d.id) ∧
    (s.selectedModelId = none →
      ms.find? (fun m => m.state = ModelState.ready) = none →
      ms.find? (fun m => m.state = ModelState.downloaded) = none →
      ms.head? = some h → h.id ≠ "" →
      (setModels ms s).selectedModelId = some h.id) ∧
    (setModels [mkModel "m1" ModelState.ready none none,
        mkModel "m2" ModelState.not_downloaded none none]
      emptyStore).selectedModelId = some "m1" := by
  refine ⟨?_, ?_, ?_, ?_, by decide⟩
  · intro hsel hne
    simp [setModels, jsOrStr, hsel, hne]
  · intro hsel hr hne
    simp [setModels, jsOrStr, hsel, hr, hne]
  · intro hsel hr hd hne
    simp [setModels, jsOrStr, hsel, hr, hd, hne]
  · intro hsel hr hd hh hne
    simp [setModels, jsOrStr, hsel, hr, hd, hh, hne]

/-- C4 amended witness: a concrete explicitly-selected id `"mX"` absent
from the snapshot is kept, and the scenario snapshot selects `"m1"`. -/
theorem c4_selection_policy_witness :
    (setModels [mkModel "m1" ModelState.ready none none]
        (setSelectedModel "mX" emptyStore)).selectedModelId = some "mX" ∧
    (setModels [mkModel "m1" ModelState.ready none none,
        mkModel "m2" ModelState.not_downloaded none none]
      emptyStore).selectedModelId = some "m1" :=
  ⟨(c4_selection_policy [mkModel "m1" ModelState.ready none none]
      (setSelectedModel "mX" emptyStore) "mX"
      (mkModel "" ModelState.ready none none)
      (mkModel "" ModelState.ready none none)
      (mkModel "" ModelState.ready none none)).1 rfl (by decide),
   (c4_selection_policy [] emptyStore ""
      (mkModel "" ModelState.ready none none)
      (mkModel "" ModelState.ready none none)
      (mkModel "" ModelState.ready none none)).2.2.2.2⟩

/-- C5: the generation guard admits at most one in-flight generation: a
begin attempt while a generation is pending is a complete no-op (no
request issued, nothing mutated); an attempt from the idle state with the
client-side preconditions met issues a request, and when that generation
fails the guard returns to idle with the failure recorded in
`generationError`, after which a subsequent begin attempt issues a request
again. -/
theorem c5_generation_guard (st : GenPageState) (o o2 : ApiOutcome)
    (msg : String) :
    (st.store.isGenerating = true → handleGenerate st o = (st, none)) ∧
    (st.store.isGenerating = false →
     jsTrim st.store.currentPrompt ≠ "" →
     jsTruthyStr st.store.selectedModelId = true →
     (st.mode = GenerationMode.txt2img ∨ st.referenceImage = true) →
      ((handleGenerate st (ApiOutcome.failure msg)).2.isSome = true ∧
       (handleGenerate st (ApiOutcome.failure msg)).1.store.isGenerating = false ∧
       (handleGenerate st (ApiOutcome.failure msg)).1.store.generationError =
         some msg ∧
       (handleGenerate (handleGenerate st (ApiOutcome.failure msg)).1 o2).2.isSome =
         true)) := by
  constructor
  · intro h
    unfold handleGenerate
    rw [if_pos (Or.inr (Or.inr h))]
  · intro h1 h2 h3 h4
    have hguard : ¬(jsTrim st.store.currentPrompt = "" ∨
        jsTruthyStr st.store.selectedModelId = false ∨
        st.store.isGenerating = true) := by
      simp [h1, h2, h3]
    have hmode : ¬(st.mode = GenerationMode.img2img ∧ st.referenceImage = false) := by
      rcases h4 with h4 | h4 <;> simp [h4]
    unfold handleGenerate
    rw [if_neg hguard, if_neg hmode]
    refine ⟨rfl, rfl, rfl, ?_⟩
    show (handleGenerate
      { st with store := setGenerating false (setGenerationError (some msg)
          (setGenerationError none (setGenerating true st.store))) } o2).2.isSome = true
    unfold handleGenerate
    rw [if_neg (by simp [setGenerating, setGenerationError, h2, h3]),
        if_neg hmode]
    cases o2 <;> rfl

/-- C5 witness: from the concrete busy page no request is issued and the
state is untouched; from the concrete idle page a failing generation
issues a request, returns the guard to idle recording `"boom"`, and the
next attempt issues a request again. -/
theorem c5_generation_guard_witness :
    handleGenerate genBusyPage (ApiOutcome.success sampleImage) =
      (genBusyPage, none) ∧
    ((handleGenerate genReadyPage (ApiOutcome.failure "boom")).2.isSome = true ∧
     (handleGenerate genReadyPage (ApiOutcome.failure "boom")).1.store.isGenerating =
       false ∧
     (handleGenerate genReadyPage (ApiOutcome.failure "boom")).1.store.generationError =
       some "boom" ∧
     (handleGenerate (handleGenerate genReadyPage (ApiOutcome.failure "boom")).1
        (ApiOutcome.success sampleImage)).2.isSome = true) :=
  ⟨(c5_generation_guard genBusyPage (ApiOutcome.success sampleImage)
      (ApiOutcome.success sampleImage) "boom").1 rfl,
   (c5_generation_guard genReadyPage (ApiOutcome.success sampleImage)
      (ApiOutcome.success sampleImage) "boom").2 rfl (by decide) (by decide)
     (Or.inl rfl)⟩

/-- C6: for every close of the hook's transport, the intentional code 1000
schedules no reconnect (the pending-timer slot is left as it was); any
other closure code while still mounted schedules exactly one reconnect
after the configured interval (default 3000 ms); and `disconnect` — run on
intentional close and on owner teardown — cancels any pending scheduled
reconnect. -/
theorem c6_reconnect_policy (s : WsState) (code r : Nat) :
    (code = 1000 → (onClose r code s).reconnectTimer = s.reconnectTimer) ∧
    (code ≠ 1000 → s.mounted = true →
      (onClose r code s).reconnectTimer = some r) ∧
    (disconnect s).reconnectTimer = none := by
  refine ⟨?_, ?_, rfl⟩
  · intro h
    unfold onClose
    by_cases hm : s.mounted = false
    · rw [if_pos hm]
    · rw [if_neg hm, if_neg (by simp [h])]
  · intro h hm
    unfold onClose
    rw [if_neg (by simp [hm]), if_pos h]

/-- C6 witness: from the concrete mounted open state, an ungraceful close
with code 1006 schedules one reconnect after the default 3000 ms interval,
a close with code 1000 schedules none, and `disconnect` leaves no pending
timer. -/
theorem c6_reconnect_policy_witness :
    (onClose defaultReconnectInterval 1006 wsMounted).reconnectTimer =
      some 3000 ∧
    (onClose defaultReconnectInterval 1000 wsMounted).reconnectTimer = none ∧
    (disconnect wsMounted).reconnectTimer = none :=
  ⟨(c6_reconnect_policy wsMounted 1006 defaultReconnectInterval).2.1
      (by decide) rfl,
   (c6_reconnect_policy wsMounted 1000 defaultReconnectInterval).1 rfl,
   (c6_reconnect_policy wsMounted 1000 defaultReconnectInterval).2.2⟩

/-- C8: the hook's `send` transmits the payload if and only if a socket
exists and its ready state is OPEN; in every other transport state the
payload is silently dropped and the hook state is unchanged (it is
unchanged in all cases — `send` never mutates state and raises no
error). -/
theorem c8_send_iff_open (p : String) (s : WsState) :
    ((send p s).2 = true ↔ s.socket = some ReadyState.OPEN) ∧
    (send p s).1 = s := by
  obtain ⟨m, c, e, sock, t⟩ := s
  cases sock with
  | none => simp [send]
  | some rs => cases rs <;> simp [send]

/-- C8 witness: from the concrete open state the payload is transmitted and
the state is unchanged; with the socket closed it is dropped. -/
theorem c8_send_iff_open_witness :
    (send "ping" wsMounted).2 = true ∧
    (send "ping" wsMounted).1 = wsMounted ∧
    (send "ping" { wsMounted with socket := some ReadyState.CLOSED }).2 = false :=
  ⟨(c8_send_iff_open "ping" wsMounted).1.mpr rfl,
   (c8_send_iff_open "ping" wsMounted).2,
   by
    have h := (c8_send_iff_open "ping"
      { wsMounted with socket := some ReadyState.CLOSED }).1
    revert h
    decide⟩

/-- C10: a begin-generation attempt is a complete no-op — no request
issued, no state mutated, no error recorded — whenever the trimmed prompt
is empty, no model is selected, or the mode is img2img with no reference
image; an issued request always carries a non-blank prompt and a non-empty
model id; and a request is issued exactly when `canGenerate` holds. -/
theorem c10_generate_guards (st : GenPageState) (o : ApiOutcome) :
    ((jsTrim st.store.currentPrompt = "" ∨ st.store.selectedModelId = none ∨
        (st.mode = GenerationMode.img2img ∧ st.referenceImage = false)) →
      handleGenerate st o = (st, none)) ∧
    (∀ req, (handleGenerate st o).2 = some req →
      jsTrim req.prompt ≠ "" ∧ req.model_id ≠ "") ∧
    (handleGenerate st o).2.isSome = canGenerate st := by
  by_cases hp : jsTrim st.store.currentPrompt = ""
  · have hg : handleGenerate st o = (st, none) := by
      unfold handleGenerate
      rw [if_pos (Or.inl hp)]
    refine ⟨fun _ => hg, ?_, ?_⟩
    · intro req hreq
      rw [hg] at hreq
      exact absurd hreq (by simp)
    · rw [hg]
      show false = canGenerate st
      unfold canGenerate
      rw [if_pos hp]
  · by_cases hsel : jsTruthyStr st.store.selectedModelId = false
    · have hg : handleGenerate st o = (st, none) := by
        unfold handleGenerate
        rw [if_pos (Or.inr (Or.inl hsel))]
      refine ⟨fun _ => hg, ?_, ?_⟩
      · intro req hreq
        rw [hg] at hreq
        exact absurd hreq (by simp)
      · rw [hg]
        show false = canGenerate st
        unfold canGenerate
        rw [if_neg hp]
        by_cases hgen : st.store.isGenerating = true
        · rw [if_pos hgen]
        · rw [if_neg hgen, if_pos hsel]
    · by_cases hgen : st.store.isGenerating = true
      · have hg : handleGenerate st o = (st, none) := by
          unfold handleGenerate
          rw [if_pos (Or.inr (Or.inr hgen))]
        refine ⟨fun _ => hg, ?_, ?_⟩
        · intro req hreq
          rw [hg] at hreq
          exact absurd hreq (by simp)
        · rw [hg]
          show false = canGenerate st
          unfold canGenerate
          rw [if_neg hp, if_pos hgen]
      · have hguard : ¬(jsTrim st.store.currentPrompt = "" ∨
            jsTruthyStr st.store.selectedModelId = false ∨
            st.store.isGenerating = true) := by
          simp [hp, hsel, hgen]
        by_cases hmode : st.mode = GenerationMode.img2img ∧ st.referenceImage = false
        · have hg : handleGenerate st o = (st, none) := by
            unfold handleGenerate
            rw [if_neg hguard, if_pos hmode]
          refine ⟨fun _ => hg, ?_, ?_⟩
          · intro req hreq
            rw [hg] at hreq
            exact absurd hreq (by simp)
          · rw [hg]
            show false = canGenerate st
            unfold canGenerate
            rw [if_neg hp, if_neg hgen, if_neg hsel,
              if_neg (by
                intro ht
                exact absurd (ht ▸ hmode.1) (by decide)),
              hmode.2]
        · obtain ⟨sid, hsid⟩ : ∃ sid, st.store.selectedModelId = some sid := by
            cases hx : st.store.selectedModelId with
            | none => exact absurd (by simp [jsTruthyStr, hx]) hsel
            | some v => exact ⟨v, rfl⟩
          have hsidne : sid ≠ "" := by
            intro he
            exact hsel (by simp [jsTruthyStr, hsid, he])
          have hreq : (handleGenerate st o).2 =
              some { prompt := st.store.currentPrompt
                     model_id := st.store.selectedModelId.getD "" } := by
            unfold handleGenerate
            rw [if_neg hguard, if_neg hmode]
            cases o <;> rfl
          refine ⟨fun habs => ?_, ?_, ?_⟩
          · rcases habs with h | h | h
            · exact absurd h hp
            · exact absurd (by simp [jsTruthyStr, h]) hsel
            · exact absurd h hmode
          · intro req hr
            rw [hreq] at hr
            cases hr
            refine ⟨hp, ?_⟩
            rw [hsid]
            exact hsidne
          · rw [hreq]
            show true = canGenerate st
            unfold canGenerate
            rw [if_neg hp, if_neg hgen, if_neg hsel]
            by_cases ht : st.mode = GenerationMode.txt2img
            · rw [if_pos ht]
            · rw [if_neg ht]
              cases hri : st.referenceImage with
              | true => rfl
              | false =>
                  cases hmo : st.mode with
                  | txt2img => exact absurd hmo ht
                  | img2img => exact absurd ⟨hmo, hri⟩ hmode

/-- C10 witness: with the concrete blank-prompt page nothing happens and no
request is issued; the concrete ready page issues a request whose prompt
and model id are non-blank. -/
theorem c10_generate_guards_witness :
    handleGenerate genBlankPage (ApiOutcome.success sampleImage) =
      (genBlankPage, none) ∧
    (handleGenerate genBlankPage (ApiOutcome.success sampleImage)).2.isSome =
      canGenerate genBlankPage :=
  ⟨(c10_generate_guards genBlankPage (ApiOutcome.success sampleImage)).1
      (Or.inl (by decide)),
   (c10_generate_guards genBlankPage (ApiOutcome.success sampleImage)).2.2⟩

end ZImage
